import Mathlib

/-!
Shallow embedding of the tooling-resolution module of jedha-cli
(src/src/misc.py): the probe primitive `run_command`, the availability
checks, `get_docker_compose_command`, `get_running_labs` and
`is_lab_already_running`.

The host system is modelled as a `SysState`: for every command line it
records the exit status of spawning it (`none` when the binary is not on
the search path, mirroring FileNotFoundError), the text captured on
standard output, and the operating-system name reported by
platform.system(). Functions that spawn subprocesses additionally return
the ordered list of command lines they spawned, so that claims about
which external commands are (or are not) executed can be stated.
-/

/-- The observable state of the host machine at call time. -/
structure SysState where
  exec : List String → Option Nat
  out : List String → String
  os : String

/-- typer.Exit with its code, paired with the guidance message printed
just before raising it. -/
inductive CliExit where
  | exit (code : Nat) (msg : String)
deriving DecidableEq

/-- The exceptions `get_running_labs` can let escape: a
subprocess.CalledProcessError from check=True on a non-zero exit, a
FileNotFoundError when the binary is absent, and the IndexError from
`line.split()[0]` on a token-free line. -/
inductive RunError where
  | calledProcessError (returncode : Nat)
  | fileNotFoundError
  | indexError
deriving DecidableEq

/-- misc.py lines 75-90: run the command with output suppressed and
check=True; True on exit status 0, False on CalledProcessError
(non-zero exit) or FileNotFoundError (binary absent). -/
def run_command (σ : SysState) (command : List String) : Bool :=
  match σ.exec command with
  | some 0 => true
  | _ => false

/-- misc.py line 100. -/
def docker_is_installed (σ : SysState) : Bool :=
  run_command σ ["docker", "--version"]

/-- misc.py line 110. -/
def docker_compose_v2_is_installed (σ : SysState) : Bool :=
  run_command σ ["docker", "compose", "version"]

/-- misc.py line 120. -/
def docker_compose_v1_is_installed (σ : SysState) : Bool :=
  run_command σ ["docker-compose", "--version"]

/-- misc.py line 130. -/
def docker_requires_sudo (σ : SysState) : Bool :=
  ! run_command σ ["docker", "ps"]

def dockerNotFoundMsg : String := "Docker not found. Please install it."

def composeNotFoundMsg : String :=
  "Docker Compose (either V1 or V2) not found. Please install Docker Desktop or docker-compose."

/-- misc.py lines 153-155, the last step of get_docker_compose_command:
`if platform.system() != "Darwin" or docker_requires_sudo(): args.insert(0, "sudo")`.
Python's `or` short-circuits, so the ["docker", "ps"] probe behind
docker_requires_sudo runs only when the OS is Darwin; `t` is the probe
trace accumulated so far. -/
def addSudo (σ : SysState) (cmd : List String) (t : List (List String)) :
    Except CliExit (List String) × List (List String) :=
  if σ.os ≠ "Darwin" then (.ok ("sudo" :: cmd), t)
  else if docker_requires_sudo σ then (.ok ("sudo" :: cmd), t ++ [["docker", "ps"]])
  else (.ok cmd, t ++ [["docker", "ps"]])

/-- misc.py lines 133-155. The Python code mutates `args` in place with
insert(0, _) and insert(1, _) and returns it; here the prefixed list is
returned. The second component is the ordered list of commands probed. -/
def get_docker_compose_command (σ : SysState) (args : List String) :
    Except CliExit (List String) × List (List String) :=
  if ¬ docker_is_installed σ then
    (.error (.exit 1 dockerNotFoundMsg), [["docker", "--version"]])
  else if docker_compose_v2_is_installed σ then
    addSudo σ ("docker" :: "compose" :: args)
      [["docker", "--version"], ["docker", "compose", "version"]]
  else if docker_compose_v1_is_installed σ then
    addSudo σ ("docker-compose" :: args)
      [["docker", "--version"], ["docker", "compose", "version"],
       ["docker-compose", "--version"]]
  else
    (.error (.exit 1 composeNotFoundMsg),
      [["docker", "--version"], ["docker", "compose", "version"],
       ["docker-compose", "--version"]])

/-- Split a character list at every character satisfying `p`, keeping
empty groups (the semantics of String.split). -/
def splitChars (p : Char → Bool) : List Char → List (List Char)
  | [] => [[]]
  | a :: rest =>
    if p a then [] :: splitChars p rest
    else
      match splitChars p rest with
      | g :: gs => (a :: g) :: gs
      | [] => [[a]]

/-- Python str.splitlines for newline-separated text: split on the line
feed, without a trailing empty field when the text ends in one, and the
empty string has no lines at all. -/
def splitlines (s : String) : List String :=
  if s.data = [] then []
  else
    let parts := (splitChars (fun c => c = Char.ofNat 10) s.data).map String.mk
    if s.data.getLast? = some (Char.ofNat 10) then parts.dropLast else parts

/-- Python str.split() with no separator: split on runs of whitespace,
ignoring leading and trailing whitespace. -/
def pySplit (s : String) : List String :=
  ((splitChars Char.isWhitespace s.data).map String.mk).filter (fun t => t ≠ "")

/-- `line.split()[0]`: the first whitespace-delimited token, absent
(IndexError in Python) when the line has no token. -/
def firstToken (line : String) : Option String :=
  (pySplit line).head?

/-- The generator `line.split()[0] for line in lines[1:]` consumed by
set(): each line's first token in order, or `none` as soon as a line has
no token. -/
def firstTokens : List String → Option (List String)
  | [] => some []
  | line :: rest =>
    match firstToken line, firstTokens rest with
    | some t, some ts => some (t :: ts)
    | _, _ => none

/-- The command line misc.py line 166 hardcodes. -/
def lsCommand : List String := ["docker", "compose", "ls"]

/-- misc.py lines 158-172: run ["docker", "compose", "ls"] with
check=True and capture_output, split the captured stdout into lines,
drop the header line and collect the first token of every remaining line
into a set. The second component is the command line actually spawned. -/
def get_running_labs (σ : SysState) :
    Except RunError (Finset String) × List (List String) :=
  (match σ.exec lsCommand with
   | none => .error .fileNotFoundError
   | some (code + 1) => .error (.calledProcessError (code + 1))
   | some 0 =>
     match firstTokens ((splitlines (σ.out lsCommand)).drop 1) with
     | some labs => .ok labs.toFinset
     | none => .error .indexError,
   [lsCommand])

/-- misc.py lines 175-191. Exceptions escaping get_running_labs
propagate. The second component records whether the verbose notice was
printed (its exact text joins the set in arbitrary order, so only the
fact of printing is modelled). -/
def is_lab_already_running (σ : SysState) (verbose : Bool := true) :
    Except RunError Bool × Bool :=
  match (get_running_labs σ).1 with
  | .error e => (.error e, false)
  | .ok labs => if labs = ∅ then (.ok false, false) else (.ok true, verbose)

instance exceptDecEq {ε α : Type} [DecidableEq ε] [DecidableEq α] :
    DecidableEq (Except ε α) := fun x y =>
  match x, y with
  | .ok a, .ok b =>
    if h : a = b then isTrue (by rw [h]) else isFalse (by simp [h])
  | .error a, .error b =>
    if h : a = b then isTrue (by rw [h]) else isFalse (by simp [h])
  | .ok _, .error _ => isFalse (by simp)
  | .error _, .ok _ => isFalse (by simp)

/-- A host where every probe and the listing succeed: Docker, compose V2
and compose V1 all present, docker reachable without sudo, on Linux. -/
def allOk : SysState := ⟨fun _ => some 0, fun _ => "", "Linux"⟩

/-- A host where no binary is on the search path. -/
def notFoundState : SysState := ⟨fun _ => none, fun _ => "", "Linux"⟩

/-- A host with Docker installed but both compose variants absent. -/
def noComposeState : SysState :=
  ⟨fun c => if c = ["docker", "--version"] then some 0 else some 1, fun _ => "", "Linux"⟩

/-- A host where only compose V1 is available: the V2 probe exits 1,
every other command succeeds. -/
def v1OnlyState : SysState :=
  ⟨fun c => if c = ["docker", "compose", "version"] then some 1 else some 0,
   fun _ => "", "Linux"⟩

/-- A host whose listing output has a header line and two labs. -/
def listingState : SysState :=
  ⟨fun _ => some 0, fun _ => "NAME STATUS\nlab1 running\nlab2 running\n", "Linux"⟩

/-- A host whose listing output is only the header line. -/
def headerOnlyState : SysState :=
  ⟨fun _ => some 0, fun _ => "NAME STATUS\n", "Linux"⟩

/-- A host whose listing output has an empty line after the header. -/
def blankLineState : SysState :=
  ⟨fun _ => some 0, fun _ => "NAME\n\n", "Linux"⟩

/-- A host where the listing command exits 1 but every probe succeeds. -/
def failLsState : SysState :=
  ⟨fun c => if c = ["docker", "compose", "ls"] then some 1 else some 0,
   fun _ => "", "Linux"⟩

/-- Claim C1: whenever get_docker_compose_command returns a command line,
that command line begins with the elevation token "sudo" if and only if
the host OS is not Darwin or docker_requires_sudo is true, over all four
combinations of OS and elevation need. -/
theorem C1_elevation_iff (σ : SysState) (args cmd : List String)
    (h : (get_docker_compose_command σ args).1 = .ok cmd) :
    cmd.head? = some "sudo" ↔ (σ.os ≠ "Darwin" ∨ docker_requires_sudo σ = true) := by
  unfold get_docker_compose_command addSudo at h
  by_cases h1 : docker_is_installed σ <;>
    by_cases h2 : docker_compose_v2_is_installed σ <;>
      by_cases h3 : docker_compose_v1_is_installed σ <;>
        by_cases h4 : σ.os = "Darwin" <;>
          by_cases h5 : docker_requires_sudo σ <;>
            simp_all <;> (subst h; simp)

/-- Witness for C1 on a Linux host with every probe succeeding. -/
theorem C1_elevation_iff_witness :
    (["sudo", "docker", "compose", "ls"] : List String).head? = some "sudo" ↔
      (allOk.os ≠ "Darwin" ∨ docker_requires_sudo allOk = true) :=
  C1_elevation_iff allOk ["ls"] ["sudo", "docker", "compose", "ls"] rfl

/-- Claim C2: with the runtime available, compose V2 available means the
returned line is the tail prefixed by ["docker", "compose"] (possibly
after "sudo") regardless of V1; the V1 form ["docker-compose"] is used
only when V2 is unavailable. -/
theorem C2_v2_preferred (σ : SysState) (args : List String)
    (h1 : docker_is_installed σ = true) :
    (docker_compose_v2_is_installed σ = true →
      (get_docker_compose_command σ args).1 =
        .ok ((if σ.os ≠ "Darwin" ∨ docker_requires_sudo σ = true then ["sudo"] else []) ++
          "docker" :: "compose" :: args)) ∧
    (docker_compose_v2_is_installed σ = false →
      docker_compose_v1_is_installed σ = true →
      (get_docker_compose_command σ args).1 =
        .ok ((if σ.os ≠ "Darwin" ∨ docker_requires_sudo σ = true then ["sudo"] else []) ++
          "docker-compose" :: args)) := by
  unfold get_docker_compose_command addSudo
  by_cases h2 : docker_compose_v2_is_installed σ <;>
    by_cases h3 : docker_compose_v1_is_installed σ <;>
      by_cases h4 : σ.os = "Darwin" <;>
        by_cases h5 : docker_requires_sudo σ <;>
          simp_all

/-- Witness for C2 on a host where both compose variants are present. -/
theorem C2_v2_preferred_witness :
    (get_docker_compose_command allOk ["ls"]).1 =
      .ok ((if allOk.os ≠ "Darwin" ∨ docker_requires_sudo allOk = true then ["sudo"] else []) ++
        "docker" :: "compose" :: ["ls"]) :=
  (C2_v2_preferred allOk ["ls"] rfl).1 rfl

/-- Claim C3: get_docker_compose_command fails with exit status 1 in
exactly two cases — runtime missing (without probing either compose
variant, witnessed by the probe trace) and compose missing — and
otherwise returns a command line. -/
theorem C3_failure_modes (σ : SysState) (args : List String) :
    (docker_is_installed σ = false →
      (get_docker_compose_command σ args).1 = .error (.exit 1 dockerNotFoundMsg) ∧
      (get_docker_compose_command σ args).2 = [["docker", "--version"]]) ∧
    (docker_is_installed σ = true →
      docker_compose_v2_is_installed σ = false →
      docker_compose_v1_is_installed σ = false →
      (get_docker_compose_command σ args).1 = .error (.exit 1 composeNotFoundMsg)) ∧
    (docker_is_installed σ = true →
      (docker_compose_v2_is_installed σ = true ∨ docker_compose_v1_is_installed σ = true) →
      ∃ cmd, (get_docker_compose_command σ args).1 = .ok cmd) := by
  unfold get_docker_compose_command addSudo
  by_cases h1 : docker_is_installed σ <;>
    by_cases h2 : docker_compose_v2_is_installed σ <;>
      by_cases h3 : docker_compose_v1_is_installed σ <;>
        by_cases h4 : σ.os = "Darwin" <;>
          by_cases h5 : docker_requires_sudo σ <;>
            simp_all

/-- Witness for C3 on a host with no binaries and on a host with Docker
but no compose. -/
theorem C3_failure_modes_witness :
    ((get_docker_compose_command notFoundState ["ls"]).1 =
        .error (.exit 1 dockerNotFoundMsg) ∧
      (get_docker_compose_command notFoundState ["ls"]).2 = [["docker", "--version"]]) ∧
    (get_docker_compose_command noComposeState ["ls"]).1 =
      .error (.exit 1 composeNotFoundMsg) :=
  ⟨(C3_failure_modes notFoundState ["ls"]).1 rfl,
   (C3_failure_modes noComposeState ["ls"]).2.1 (by decide) (by decide) (by decide)⟩

/-- Claim C4, counterexample: on a host where only compose V1 resolves,
get_docker_compose_command selects ["sudo", "docker-compose", ...], yet
get_running_labs still spawns the hardcoded ["docker", "compose", "ls"],
which is not the resolved tooling. -/
theorem C4_counterexample :
    (get_docker_compose_command v1OnlyState ["ls"]).1 = .ok ["sudo", "docker-compose", "ls"] ∧
    (get_running_labs v1OnlyState).2 = [["docker", "compose", "ls"]] ∧
    (["docker", "compose", "ls"] : List String) ≠ ["sudo", "docker-compose", "ls"] :=
  ⟨by decide, rfl, by decide⟩

/-- Claim C4 as amended: get_running_labs always spawns exactly the fixed
command ["docker", "compose", "ls"], independent of which compose variant
or elevation prefix the resolution procedure would select. -/
theorem C4_amended_fixed_listing (σ : SysState) :
    (get_running_labs σ).2 = [["docker", "compose", "ls"]] := rfl

/-- Claim C5: get_running_labs splits the captured output into lines,
drops the header and takes the first whitespace-delimited token of every
remaining line, returning a duplicate-free set: the two-lab output yields
exactly that two-element set, and header-only output yields the empty
set. -/
theorem C5_parse_examples (σ : SysState) (h : σ.exec lsCommand = some 0) :
    (σ.out lsCommand = "NAME STATUS\nlab1 running\nlab2 running\n" →
      (get_running_labs σ).1 = .ok {"lab1", "lab2"}) ∧
    (σ.out lsCommand = "NAME STATUS\n" →
      (get_running_labs σ).1 = .ok ∅) := by
  constructor <;> intro ho <;> simp only [get_running_labs, h, ho] <;> decide

/-- Witness for C5 on hosts producing the two sample listing outputs. -/
theorem C5_parse_examples_witness :
    (get_running_labs listingState).1 = .ok {"lab1", "lab2"} ∧
    (get_running_labs headerOnlyState).1 = .ok ∅ :=
  ⟨(C5_parse_examples listingState rfl).1 rfl,
   (C5_parse_examples headerOnlyState rfl).2 rfl⟩

/-- Claim C6: when the listing subprocess exits non-zero,
get_running_labs propagates the failure as an error instead of returning
a value, whereas the probe primitive run_command converts the same
non-zero exit into the value false. -/
theorem C6_nonzero_propagates (σ : SysState) (code : Nat)
    (h : σ.exec lsCommand = some (code + 1)) :
    (get_running_labs σ).1 = .error (.calledProcessError (code + 1)) ∧
    run_command σ lsCommand = false := by
  unfold get_running_labs run_command
  rw [h]
  exact ⟨rfl, rfl⟩

/-- Witness for C6 on a host where the listing command exits 1. -/
theorem C6_nonzero_propagates_witness :
    (get_running_labs failLsState).1 = .error (.calledProcessError 1) ∧
    run_command failLsState lsCommand = false :=
  C6_nonzero_propagates failLsState 0 (by decide)

/-- Claim C7: run_command returns true iff the spawned process exits with
status zero, and returns false — never raising, being a total function —
both when the binary is absent and when it exits non-zero. -/
theorem C7_probe_semantics (σ : SysState) (command : List String) :
    (run_command σ command = true ↔ σ.exec command = some 0) ∧
    (σ.exec command = none → run_command σ command = false) ∧
    (∀ code : Nat, σ.exec command = some (code + 1) → run_command σ command = false) := by
  unfold run_command
  rcases hh : σ.exec command with _ | (_ | n) <;> simp [hh]

/-- Witness for C7: a successful probe and an absent binary. -/
theorem C7_probe_semantics_witness :
    run_command allOk ["docker", "--version"] = true ∧
    run_command notFoundState ["docker", "--version"] = false :=
  ⟨(C7_probe_semantics allOk ["docker", "--version"]).1.mpr rfl,
   (C7_probe_semantics notFoundState ["docker", "--version"]).2.1 rfl⟩

/-- Claim C8: is_lab_already_running returns true iff get_running_labs
returns a non-empty set, and the verbose flag never changes the returned
value — it only controls whether the notice is printed. -/
theorem C8_verbose_only_output (σ : SysState) (v w : Bool) :
    (is_lab_already_running σ v).1 = (is_lab_already_running σ w).1 ∧
    ((is_lab_already_running σ v).1 = .ok true ↔
      ∃ labs, (get_running_labs σ).1 = .ok labs ∧ labs ≠ ∅) := by
  unfold is_lab_already_running
  rcases hh : (get_running_labs σ).1 with e | labs
  · simp
  · by_cases hl : labs = ∅ <;> simp [hl]

/-- Witness for C8 on a host with two running labs. -/
theorem C8_verbose_only_output_witness :
    (is_lab_already_running listingState true).1 =
      (is_lab_already_running listingState false).1 :=
  (C8_verbose_only_output listingState true false).1

/-- The token collection of get_running_labs fails exactly when some line
has no whitespace-delimited token. -/
theorem firstTokens_eq_none_iff (l : List String) :
    firstTokens l = none ↔ ∃ line ∈ l, pySplit line = [] := by
  induction l with
  | nil => simp [firstTokens]
  | cons a l ih =>
    have hfa : firstToken a = none ↔ pySplit a = [] := by
      simp [firstToken, List.head?_eq_none_iff]
    cases h1 : firstToken a <;> cases h2 : firstTokens l <;>
      simp_all [firstTokens]

/-- Claim C9: the first-token extraction of get_running_labs is partial —
when the listing output succeeds, the result is the IndexError of
line.split()[0] exactly when some non-header line is empty or
whitespace-only, and the parsing returns a set only when every non-header
line has at least one token. -/
theorem C9_blank_line_raises (σ : SysState) (h : σ.exec lsCommand = some 0) :
    (get_running_labs σ).1 = .error .indexError ↔
      ∃ line ∈ (splitlines (σ.out lsCommand)).drop 1, pySplit line = [] := by
  have hiff := firstTokens_eq_none_iff ((splitlines (σ.out lsCommand)).drop 1)
  simp only [get_running_labs, h]
  cases hf : firstTokens ((splitlines (σ.out lsCommand)).drop 1) with
  | none => simpa [hf] using hiff.mp hf
  | some labs =>
    simp only [hf]
    constructor
    · intro habs; cases habs
    · intro hex
      have hc := hiff.mpr hex
      rw [hf] at hc
      cases hc

/-- Witness for C9 on a host whose listing output has an empty line
after the header. -/
theorem C9_blank_line_raises_witness :
    (get_running_labs blankLineState).1 = .error .indexError :=
  (C9_blank_line_raises blankLineState rfl).mpr ⟨"", by decide, by decide⟩

/-- Claim C10: every command line returned by get_docker_compose_command
ends with exactly the supplied tail, unmodified and in order — only one
of four possible token sequences is prepended. -/
theorem C10_tail_preserved (σ : SysState) (args cmd : List String)
    (h : (get_docker_compose_command σ args).1 = .ok cmd) :
    ∃ p, cmd = p ++ args ∧
      (p = ["docker", "compose"] ∨ p = ["sudo", "docker", "compose"] ∨
       p = ["docker-compose"] ∨ p = ["sudo", "docker-compose"]) := by
  unfold get_docker_compose_command addSudo at h
  by_cases h1 : docker_is_installed σ <;>
    by_cases h2 : docker_compose_v2_is_installed σ <;>
      by_cases h3 : docker_compose_v1_is_installed σ <;>
        by_cases h4 : σ.os = "Darwin" <;>
          by_cases h5 : docker_requires_sudo σ <;>
            simp_all <;>
            (subst h
             first
               | exact ⟨["sudo", "docker", "compose"], rfl, by simp⟩
               | exact ⟨["docker", "compose"], rfl, by simp⟩
               | exact ⟨["sudo", "docker-compose"], rfl, by simp⟩
               | exact ⟨["docker-compose"], rfl, by simp⟩)

/-- Witness for C10 on a Linux host with every probe succeeding. -/
theorem C10_tail_preserved_witness :
    ∃ p, (["sudo", "docker", "compose", "ls"] : List String) = p ++ ["ls"] ∧
      (p = ["docker", "compose"] ∨ p = ["sudo", "docker", "compose"] ∨
       p = ["docker-compose"] ∨ p = ["sudo", "docker-compose"]) :=
  C10_tail_preserved allOk ["ls"] ["sudo", "docker", "compose", "ls"] rfl
